import Mathlib

/-!
Verification of the object-storage administration console
(`src/utils/object_storage_utils.py`, `src/db/object_storage_repo.py`,
`src/models/object_storage_config.py`) against its design specification.

Strings are modelled as Lean `String` (a wrapper around `List Char`, matching
Python's sequence-of-code-points view).  Python string primitives used by the
source (`str.rstrip`, `str.startswith`, `str.endswith`, slicing, `len`) are
embedded below with their Python semantics; in particular `str.rstrip(chars)`
removes trailing characters drawn from the *character set* of `chars`, not the
literal suffix.

Python floats only enter through `human_readable_size`, where every division is
by `1024.0`; such divisions are exact in IEEE-754 binary floating point (a pure
exponent shift), so the value being formatted is the exact rational
`size / 1024^k` and is modelled in `ℚ`.  `f"{x:.1f}"` is embedded as correct
rounding of that rational to one decimal digit with ties to even, which is what
CPython's float formatting produces on these exact values.

Effects are made explicit: the boto3 `list_objects_v2` call is abstracted as an
`Except` parameter (its fault branch models `botocore.exceptions.ClientError`),
the SQLAlchemy session as a list of rows passed in and out, logger/`st.error`
output as a list of emitted messages.
-/

namespace ObjectStorage

/-! ### Python string primitives -/

/-- Python `s.rstrip(chars)`: remove trailing characters of `s` that occur in
the character set of `chars` (`object_storage_utils.py` uses it at lines 248,
255 and 259). -/
def pyRstrip (s : String) (chars : String) : String :=
  ⟨(s.data.reverse.dropWhile (fun c => chars.data.contains c)).reverse⟩

/-- Python `s.startswith(p)` (code-point level). -/
def pyStartsWith (s p : String) : Bool :=
  p.data.isPrefixOf s.data

/-- Python `s.endswith('/')`: the last character is `'/'`. -/
def endsWithSlash (s : String) : Bool :=
  match s.data.getLast? with
  | some c => c = '/'
  | none => false

/-- Python `len(s)` (code points). -/
def pyLen (s : String) : Nat := s.data.length

/-- Python `s[n:]` (code points). -/
def pyDrop (s : String) (n : Nat) : String := ⟨s.data.drop n⟩

/-! ### `format_object_key` and `remove_prefix`
(`src/utils/object_storage_utils.py` lines 217–262) -/

/-- The folder icon prepended by `format_object_key` for keys ending in `/`. -/
def folderIcon : String := "📂"

/-- The file icon prepended by `format_object_key` for other keys. -/
def fileIcon : String := "📄"

/-- `format_object_key(key)`: prepend a folder icon when the key ends with
`/`, a file icon otherwise (lines 217–232). -/
def format_object_key (key : String) : String :=
  (if endsWithSlash key then folderIcon else fileIcon) ++ " " ++ key

/-- `remove_prefix(key, prefix)` (lines 234–262): the displayName computation.
Branches, in source order: key equal to the prefix (returns the formatted
prefix `rstrip`ped by the *character set* of the prefix); key starting with the
prefix (strip it, format, strip trailing `/`); key ending in `/`; raw key. -/
def remove_prefix (key : String) (pfx : String) : String :=
  if key = pfx then
    pyRstrip (format_object_key pfx) pfx
  else if pyStartsWith key pfx then
    pyRstrip (format_object_key (pyDrop key (pyLen pfx))) "/"
  else if endsWithSlash key then
    pyRstrip (format_object_key key) "/"
  else
    key

/-! ### `human_readable_size` (lines 193–201) -/

/-- Round-half-even of a rational to an integer (CPython float formatting on
the exact values reached here). -/
def roundHalfEven (q : ℚ) : ℤ :=
  if q - ⌊q⌋ < 1/2 then ⌊q⌋
  else if 1/2 < q - ⌊q⌋ then ⌊q⌋ + 1
  else if ⌊q⌋ % 2 = 0 then ⌊q⌋ else ⌊q⌋ + 1

/-- Python `f"{x:.1f}"` for the non-negative exact values reached in
`human_readable_size`: one digit after the decimal point. -/
def formatOneDec (q : ℚ) : String :=
  toString ((roundHalfEven (10 * q)).toNat / 10) ++ "."
    ++ toString ((roundHalfEven (10 * q)).toNat % 10)

/-- The loop of `human_readable_size` over the remaining unit names, with the
`TB` fallback after the list is exhausted (lines 194–199). -/
def hrsGo : List String → ℚ → String
  | [], size => formatOneDec size ++ " TB"
  | u :: us, size =>
      if size < 1024 then formatOneDec size ++ " " ++ u
      else hrsGo us (size / 1024)

/-- `human_readable_size(size_in_bytes)` (lines 194–199). -/
def human_readable_size (size : ℚ) : String :=
  hrsGo ["B", "KB", "MB", "GB"] size

/-- The unit ladder of the spec: B, KB, MB, GB, TB. -/
def units : List String := ["B", "KB", "MB", "GB", "TB"]

/-! ### `list_objects` and `transform_object_list` (lines 92–215) -/

/-- One element of the list returned by `list_objects`: the dictionary keys
`Key`, `Size`, `LastModified` actually read by `transform_object_list`.
`LastModified` is kept opaque as a string (folders carry `''`). -/
structure S3Object where
  key : String
  size : Nat
  lastModified : String
deriving DecidableEq, Repr

/-- The response shape of the remote `list_objects_v2` call: `Contents` and
`CommonPrefixes` (each common-prefix dictionary reduced to its `Prefix`
string). -/
structure ListResponse where
  contents : List S3Object
  commonPrefixes : List String
deriving DecidableEq, Repr

/-- The folder pseudo-entry built from one common-prefix result
(line 120): `{'Key': p, 'Size': 0, 'LastModified': ''}`. -/
def folderEntry (p : String) : S3Object :=
  { key := p, size := 0, lastModified := "" }

/-- A fault raised by the remote `list_objects_v2` call.  `clientError` models
`botocore.exceptions.ClientError` (a service-returned error response);
`botoCoreError` models the remaining botocore exception hierarchy raised for
connection-level failures such as `EndpointConnectionError` for an unreachable
endpoint, which is not a `ClientError`. -/
inductive RemoteFault where
  | clientError (msg : String)
  | botoCoreError (msg : String)
deriving DecidableEq, Repr

/-- `list_objects(bucket_name, prefix)` (lines 92–127).  The boto3 call is
abstracted as the `response` parameter.  The `try` block's `except` clause
catches only `ClientError` (line 125): such a fault is logged through
`self._logger.error` and turned into the empty list, while any other remote
fault propagates uncaught out of the method, modelled by an `Except.error`
result.  On success the entry list is returned together with the (empty) list
of logged messages. -/
def list_objects (bucket_name : String) (pfx : String)
    (response : Except RemoteFault ListResponse) :
    Except RemoteFault (List S3Object × List String) :=
  match response with
  | .ok r => .ok ((r.commonPrefixes.map folderEntry) ++ r.contents, [])
  | .error (.clientError e) => .ok ([], ["Error listing objects: " ++ e])
  | .error (.botoCoreError e) => .error (.botoCoreError e)

/-- One output row of `transform_object_list` (lines 203–211). -/
def transform_row (pfx : String) (obj : S3Object) : List String :=
  [ remove_prefix obj.key pfx,
    human_readable_size obj.size,
    obj.lastModified,
    "Download Delete" ]

/-- `transform_object_list(objects, prefix)` (lines 173–215): skip entries
whose key equals the prefix, emit one row for each other entry, preserving
order. -/
def transform_object_list : List S3Object → String → List (List String)
  | [], _ => []
  | obj :: rest, pfx =>
      if obj.key = pfx then transform_object_list rest pfx
      else transform_row pfx obj :: transform_object_list rest pfx

/-! ### Configuration store
(`src/db/object_storage_repo.py`, `src/models/object_storage_config.py`)

A session is modelled as the list of rows of the `object_storage_configs`
table, passed in and returned.  `st.success` / `st.warning` / `st.error`
output is returned as a `UiMessage`.  A generic storage fault
(`sqlalchemy.exc.DatabaseError`) is modelled by an `Option String` parameter
carrying the fault text; the unique-name violation (`IntegrityError` raised at
commit, enforcing `name = Column(String, nullable=False, unique=True)` of
`models/object_storage_config.py`) is modelled by checking the constraint
against the current rows. -/

/-- One row of `object_storage_configs` (`ObjectStorageConfig`,
`src/models/object_storage_config.py` lines 5–15). -/
structure ConfigRow where
  id : Nat
  name : String
  endpoint : String
  port : String
  access_key : String
  secret_key : String
  region : String
  bucket_name : String
deriving DecidableEq, Repr

/-- A message shown through `st.success`, `st.warning` or `st.error`. -/
inductive UiMessage where
  | success (text : String)
  | warning (text : String)
  | errorText (text : String)
deriving DecidableEq, Repr

/-- The `config` dictionary passed to `save_config`: exactly the keys the
function reads (lines 25–33). -/
structure ConfigInput where
  name : String
  endpoint : String
  port : String
  access_key : String
  secret_key : String
  region : String
  bucket_name : String
deriving DecidableEq, Repr

/-- The `updated_config` dictionary passed to `update_config`: `none` models a
key absent from the dictionary (`dict.get` returns the fallback).  The keys
`bucket_name` and `name` can be present in the dictionary but are never read
by `update_config`. -/
structure UpdatedConfig where
  endpoint : Option String := none
  port : Option String := none
  access_key : Option String := none
  secret_key : Option String := none
  region : Option String := none
  bucket_name : Option String := none
  name : Option String := none
deriving DecidableEq, Repr

/-- The surrogate id assigned to an inserted row (auto-assigned primary key;
fresh with respect to the current rows). -/
def nextId (store : List ConfigRow) : Nat :=
  store.foldr (fun r m => max r.id m) 0 + 1

/-- `save_config(config)` (`object_storage_repo.py` lines 16–42): insert a new
row and report success; on a unique-name violation (`IntegrityError`) report
"Configuration with this name already exists."; on any other storage fault
(`DatabaseError`, modelled by `fault`) report "Error saving configuration: …".
Returns the table rows after the call and the emitted message. -/
def save_config (store : List ConfigRow) (c : ConfigInput) (fault : Option String) :
    List ConfigRow × UiMessage :=
  if store.any (fun r => r.name == c.name) then
    (store, .errorText "Configuration with this name already exists.")
  else
    match fault with
    | some m => (store, .errorText ("Error saving configuration: " ++ m))
    | none =>
        (store ++ [{ id := nextId store, name := c.name, endpoint := c.endpoint,
                     port := c.port, access_key := c.access_key,
                     secret_key := c.secret_key, region := c.region,
                     bucket_name := c.bucket_name }],
         .success "Configuration saved successfully!")

/-- `list_configs()` (lines 44–59): all rows on success; on a storage fault
(modelled by `fault`) emit "Error retrieving configurations: …" and return the
empty list.  Total: no exception escapes. -/
def list_configs (store : List ConfigRow) (fault : Option String) :
    List ConfigRow × List UiMessage :=
  match fault with
  | some m => ([], [.errorText ("Error retrieving configurations: " ++ m)])
  | none => (store, [])

/-- The field assignments of `update_config` (lines 95–99): each of
`endpoint`, `port`, `access_key`, `secret_key`, `region` is set to
`updated_config.get(key, existing value)`; `id`, `name` and `bucket_name` are
not assigned. -/
def applyUpdatedFields (r : ConfigRow) (u : UpdatedConfig) : ConfigRow :=
  { r with
    endpoint := u.endpoint.getD r.endpoint,
    port := u.port.getD r.port,
    access_key := u.access_key.getD r.access_key,
    secret_key := u.secret_key.getD r.secret_key,
    region := u.region.getD r.region }

/-- `update_config(config_name, updated_config)` (lines 82–108):
`filter_by(name=config_name).first()` finds the first row with the given name;
if found, its fields are updated and success is reported, otherwise the table
is unchanged and a not-found warning is emitted. -/
def update_config : List ConfigRow → String → UpdatedConfig → List ConfigRow × UiMessage
  | [], config_name, _ =>
      ([], .warning ("Configuration '" ++ config_name ++ "' not found."))
  | r :: rest, config_name, u =>
      if r.name = config_name then
        (applyUpdatedFields r u :: rest,
         .success ("Configuration '" ++ config_name ++ "' updated successfully!"))
      else
        let res := update_config rest config_name u
        (r :: res.1, res.2)

/-! ## Helper lemmas -/

/-- `dropWhile` stops at the first element failing the predicate, so an
appended tail starting with such an element survives unchanged. -/
theorem dropWhile_append_cons_of_neg (p : Char → Bool) (xs : List Char) (y : Char)
    (ys : List Char) (h : p y = false) :
    (xs ++ y :: ys).dropWhile p = xs.dropWhile p ++ y :: ys := by
  induction xs with
  | nil => simp [List.dropWhile_cons, h]
  | cons x xs ih =>
      by_cases hx : p x
      · simp [List.dropWhile_cons, hx, ih]
      · simp [List.dropWhile_cons, hx]

/-- Stripping trailing `/` from `a ++ " " ++ s` never reaches past the space,
so it agrees with stripping them from `s` alone. -/
theorem pyRstrip_slash_append (a s : String) :
    pyRstrip (a ++ " " ++ s) "/" = a ++ " " ++ pyRstrip s "/" := by
  have hsp : (" " : String).data = [' '] := rfl
  apply String.ext
  simp only [pyRstrip, String.data_append, hsp, List.reverse_append,
    List.reverse_cons, List.reverse_nil, List.nil_append, List.append_assoc,
    List.singleton_append]
  rw [dropWhile_append_cons_of_neg _ _ _ _ (by decide)]
  simp [List.reverse_append, List.reverse_cons, List.reverse_reverse,
    List.append_assoc]

/-- The second branch of `remove_prefix` in closed form: when the key
strictly extends the prefix, the prefix is dropped, the marker chosen by the
stripped key, and trailing slashes removed from the stripped key. -/
theorem remove_prefix_startsWith_eq (key pfx : String)
    (h1 : pyStartsWith key pfx = true) (h2 : key ≠ pfx) :
    remove_prefix key pfx
      = (if endsWithSlash (pyDrop key (pyLen pfx)) then folderIcon else fileIcon)
        ++ " " ++ pyRstrip (pyDrop key (pyLen pfx)) "/" := by
  unfold remove_prefix
  rw [if_neg h2, if_pos h1]
  unfold format_object_key
  exact pyRstrip_slash_append _ _

/-- The two fallback branches of `remove_prefix` in closed form. -/
theorem remove_prefix_no_match (key pfx : String)
    (h1 : key ≠ pfx) (h2 : pyStartsWith key pfx = false) :
    remove_prefix key pfx
      = if endsWithSlash key then folderIcon ++ " " ++ pyRstrip key "/" else key := by
  unfold remove_prefix
  rw [if_neg h1, if_neg (by simp [h2])]
  by_cases hs : endsWithSlash key
  · rw [if_pos hs, if_pos hs]
    unfold format_object_key
    rw [if_pos hs]
    exact pyRstrip_slash_append _ _
  · rw [if_neg hs, if_neg hs]

/-! ## Claims -/

/-- C2: `transform_object_list` excludes exactly the entries whose key equals
the queried prefix: the output is one row per entry of the input with any
other key, in order. -/
theorem c2_transform_excludes_exactly_the_queried_pfx :
    ∀ (objects : List S3Object) (pfx : String),
      transform_object_list objects pfx
        = (objects.filter (fun o => o.key != pfx)).map (transform_row pfx) := by
  intro objects pfx
  induction objects with
  | nil => rfl
  | cons o rest ih =>
      by_cases h : o.key = pfx
      · simp [transform_object_list, h, ih]
      · simp [transform_object_list, h, ih]

/-- Counterexample for C8 as stated: a connection-level remote-call fault
(`EndpointConnectionError`, a `BotoCoreError` but not a `ClientError`)
propagates uncaught out of `list_objects` instead of producing an empty
result: an exception crosses the service boundary. -/
theorem c8_counterexample :
    list_objects "demo-bucket" ""
        (Except.error (RemoteFault.botoCoreError "EndpointConnectionError"))
      = Except.error (RemoteFault.botoCoreError "EndpointConnectionError")
    ∧ (Except.error (RemoteFault.botoCoreError "EndpointConnectionError")
        : Except RemoteFault (List S3Object × List String))
      ≠ Except.ok ([], ["Error listing objects: EndpointConnectionError"]) := by
  exact ⟨rfl, by simp⟩

/-- C8 (amended): a remote-call fault raised as `ClientError` during the
listing call is caught, logged through the logger, and `list_objects` returns
the empty list; a remote-call fault outside `ClientError` (e.g.
`EndpointConnectionError` for an unreachable endpoint) propagates uncaught
across the service boundary. -/
theorem c8_clientError_swallowed_rest_propagates :
    (∀ (bucket pfx msg : String),
        list_objects bucket pfx (Except.error (RemoteFault.clientError msg))
          = Except.ok ([], ["Error listing objects: " ++ msg]))
    ∧ (∀ (bucket pfx msg : String),
        list_objects bucket pfx (Except.error (RemoteFault.botoCoreError msg))
          = Except.error (RemoteFault.botoCoreError msg)) :=
  ⟨fun _ _ _ => rfl, fun _ _ _ => rfl⟩

/-- C10: on a successful listing call the returned list is the folder entries
built from the common-prefix group, in response order, followed by the content
entries, in response order. -/
theorem c10_folders_precede_files_in_listing :
    ∀ (bucket pfx : String) (r : ListResponse),
      list_objects bucket pfx (Except.ok r)
        = Except.ok (r.commonPrefixes.map folderEntry ++ r.contents, [])
      ∧ (r.commonPrefixes.map folderEntry ++ r.contents).map S3Object.key
        = r.commonPrefixes ++ r.contents.map S3Object.key := by
  intro bucket pfx r
  constructor
  · rfl
  · have hcomp : S3Object.key ∘ folderEntry = id := funext fun p => rfl
    simp [List.map_map, hcomp]

/-- C1: when the key starts with the (possibly empty) prefix and differs from
it, the displayName is the key with the prefix dropped from the front and
trailing `/` removed from the back, prefixed by the marker chosen on the
stripped key (folder marker if it ends with `/`, file marker otherwise); for
prefix "a/" and key "a/f.txt" this gives the file marker and "f.txt", and for
the empty prefix nothing is dropped from the key. -/
theorem c1_displayName_strips_pfx_and_trailing_slash :
    (∀ (key pfx : String), pyStartsWith key pfx = true → key ≠ pfx →
        remove_prefix key pfx
          = (if endsWithSlash (pyDrop key (pyLen pfx)) then folderIcon else fileIcon)
            ++ " " ++ pyRstrip (pyDrop key (pyLen pfx)) "/")
    ∧ remove_prefix "a/f.txt" "a/" = "📄 f.txt"
    ∧ (∀ key : String, key ≠ "" →
        remove_prefix key ""
          = (if endsWithSlash key then folderIcon else fileIcon)
            ++ " " ++ pyRstrip key "/") := by
  refine ⟨remove_prefix_startsWith_eq, by decide, ?_⟩
  intro key h
  have h0 : pyDrop key (pyLen "") = key := String.ext (List.drop_zero _)
  have hs : pyStartsWith key "" = true := by
    unfold pyStartsWith
    rw [show ("" : String).data = [] from rfl]
    cases hk : key.data with
    | nil => rfl
    | cons c cs => rfl
  have h1 := remove_prefix_startsWith_eq key "" hs h
  rw [h0] at h1
  exact h1

/-- Witness for C1: instantiating the stripping law at key "a/f.txt" and
prefix "a/" yields the file marker and the bare filename. -/
theorem c1_witness : remove_prefix "a/f.txt" "a/" = "📄 f.txt" := by
  have h := c1_displayName_strips_pfx_and_trailing_slash.1 "a/f.txt" "a/"
    (by decide) (by decide)
  rw [h]
  decide

/-- C4: at key = prefix = "a/" the code returns the folder marker followed by
a space only: `str.rstrip(prefix)` removes trailing characters drawn from the
prefix's character set, so the whole name "a" is eaten; the spec's "prefix
stripped of trailing `/`" would keep the name. -/
theorem c4_key_equal_pfx_strips_whole_name :
    remove_prefix "a/" "a/" = "📂 " ∧ ("📂 " : String) ≠ "📂 a" := by
  decide

/-- C5: when the key neither equals nor starts with the prefix, the raw key
is returned only if the key does not end with `/`; a key ending with `/`
takes the extra folder branch at lines 257–259 and is returned with the
folder marker and trailing slashes removed. -/
theorem c5_fallback_depends_on_trailing_slash :
    ∀ (key pfx : String), key ≠ pfx → pyStartsWith key pfx = false →
      remove_prefix key pfx
        = if endsWithSlash key then folderIcon ++ " " ++ pyRstrip key "/" else key :=
  remove_prefix_no_match

/-- Witness for C5: a folder-like key "b/" not matching prefix "a/" is
rewritten to "📂 b", while a plain key "b.txt" is returned unchanged. -/
theorem c5_witness :
    remove_prefix "b/" "a/" = "📂 b" ∧ remove_prefix "b.txt" "a/" = "b.txt" := by
  constructor
  · have h := c5_fallback_depends_on_trailing_slash "b/" "a/" (by decide) (by decide)
    rw [h]
    decide
  · have h := c5_fallback_depends_on_trailing_slash "b.txt" "a/" (by decide) (by decide)
    rw [h]
    decide

/-- Counterexample for C5 as stated: key "b/" with prefix "a/" neither equals
nor starts with the prefix, yet the computed displayName is "📂 b", not the
raw key "b/". -/
theorem c5_counterexample :
    remove_prefix "b/" "a/" = "📂 b" ∧ ("📂 b" : String) ≠ "b/" := by
  decide

/-- Counterexample for C6 as stated: a `bucket_name` entry present in the
partial-fields dictionary is ignored by `update_config`, so a field present in
`partialFields` is left unchanged. -/
theorem c6_counterexample :
    (update_config [⟨1, "p", "e", "", "ak", "sk", "rg", "b"⟩] "p"
        { bucket_name := some "X" }).1
      = [⟨1, "p", "e", "", "ak", "sk", "rg", "b"⟩]
    ∧ ("b" : String) ≠ "X" := by
  constructor
  · rfl
  · decide

/-- C6 (amended): `update_config` applies exactly the fields present among
`endpoint`, `port`, `access_key`, `secret_key`, `region` to the first profile
matched by name and leaves every omitted field unchanged; `id`, `name` and
`bucket_name` are never modified even when supplied; rows other than the
matched one are untouched; an unmatched name is a no-op with a not-found
warning. -/
theorem c6_update_applies_only_supported_present_fields :
    (∀ (r : ConfigRow) (u : UpdatedConfig),
        (applyUpdatedFields r u).id = r.id ∧
        (applyUpdatedFields r u).name = r.name ∧
        (applyUpdatedFields r u).bucket_name = r.bucket_name ∧
        (applyUpdatedFields r u).endpoint = u.endpoint.getD r.endpoint ∧
        (applyUpdatedFields r u).port = u.port.getD r.port ∧
        (applyUpdatedFields r u).access_key = u.access_key.getD r.access_key ∧
        (applyUpdatedFields r u).secret_key = u.secret_key.getD r.secret_key ∧
        (applyUpdatedFields r u).region = u.region.getD r.region) ∧
    (∀ (r : ConfigRow) (x : String),
        applyUpdatedFields r { region := some x } = { r with region := x }) ∧
    (∀ (pre post : List ConfigRow) (r : ConfigRow) (n : String) (u : UpdatedConfig),
        r.name = n → (∀ q ∈ pre, q.name ≠ n) →
        update_config (pre ++ r :: post) n u
          = (pre ++ applyUpdatedFields r u :: post,
             UiMessage.success ("Configuration '" ++ n ++ "' updated successfully!"))) ∧
    (∀ (store : List ConfigRow) (n : String) (u : UpdatedConfig),
        (∀ q ∈ store, q.name ≠ n) →
        update_config store n u
          = (store, UiMessage.warning ("Configuration '" ++ n ++ "' not found."))) := by
  refine ⟨?_, ?_, ?_, ?_⟩
  · intro r u
    refine ⟨rfl, rfl, rfl, rfl, rfl, rfl, rfl, rfl⟩
  · intro r x
    rfl
  · intro pre post r n u hr hpre
    induction pre with
    | nil => simp [update_config, hr]
    | cons q qs ih =>
        have hq : q.name ≠ n := hpre q (by simp)
        have ih2 := ih (fun x hx => hpre x (by simp [hx]))
        simp [update_config, hq, ih2]
  · intro store n u hstore
    induction store with
    | nil => rfl
    | cons q qs ih =>
        have hq : q.name ≠ n := hstore q (by simp)
        have ih2 := ih (fun x hx => hstore x (by simp [hx]))
        simp [update_config, hq, ih2]

/-- Witness for C6 (amended): a region-only update rewrites only the region of
the matched profile, and an update for an absent name is a warning no-op. -/
theorem c6_witness :
    update_config [⟨1, "p", "e", "", "ak", "sk", "rg", "b"⟩] "p" { region := some "X" }
      = ([⟨1, "p", "e", "", "ak", "sk", "X", "b"⟩],
         UiMessage.success "Configuration 'p' updated successfully!")
    ∧ update_config [] "q" {}
      = ([], UiMessage.warning "Configuration 'q' not found.") := by
  constructor
  · have h := c6_update_applies_only_supported_present_fields.2.2.1
      [] [] ⟨1, "p", "e", "", "ak", "sk", "rg", "b"⟩ "p" { region := some "X" }
      rfl (by simp)
    simpa using h
  · exact c6_update_applies_only_supported_present_fields.2.2.2 [] "q" {} (by simp)

/-- C7: saving a profile whose name already occurs exactly once fails with the
duplicate-name message (distinct from the generic persistence-fault message
for every fault text), leaves the store unchanged, and the store still holds
exactly one profile with that name; moreover a save into the empty store
followed by a save of the same name reproduces this. -/
theorem c7_duplicate_name_save_fails :
    (∀ (store : List ConfigRow) (c : ConfigInput) (fault : Option String),
        (store.filter (fun r => r.name == c.name)).length = 1 →
        save_config store c fault
          = (store, UiMessage.errorText "Configuration with this name already exists.")
        ∧ ((save_config store c fault).1.filter (fun r => r.name == c.name)).length = 1) ∧
    (∀ (m : String),
        UiMessage.errorText "Configuration with this name already exists."
          ≠ UiMessage.errorText ("Error saving configuration: " ++ m)) ∧
    (∀ (c : ConfigInput),
        save_config ((save_config [] c none).1) c none
          = ((save_config [] c none).1,
             UiMessage.errorText "Configuration with this name already exists.")) := by
  refine ⟨?_, ?_, ?_⟩
  · intro store c fault h
    have hany : store.any (fun r => r.name == c.name) = true := by
      rw [List.any_eq_true]
      cases hfil : store.filter (fun r => r.name == c.name) with
      | nil => rw [hfil] at h; simp at h
      | cons x xs =>
          have hx : x ∈ store.filter (fun r => r.name == c.name) := by
            rw [hfil]; exact List.mem_cons_self x xs
          rw [List.mem_filter] at hx
          exact ⟨x, hx.1, hx.2⟩
    have heq : save_config store c fault
        = (store, UiMessage.errorText "Configuration with this name already exists.") := by
      unfold save_config
      rw [if_pos hany]
    exact ⟨heq, by rw [heq]; exact h⟩
  · intro m h
    have h' : ("Configuration with this name already exists." : String)
        = "Error saving configuration: " ++ m := by injection h
    have h2 := congrArg String.data h'
    rw [String.data_append] at h2
    have h3 := congrArg List.head? h2
    simp at h3
  · intro c
    unfold save_config
    simp

/-- Witness for C7: with one stored profile named "p", saving another profile
named "p" is rejected with the duplicate-name message and the store is
unchanged. -/
theorem c7_witness :
    save_config [⟨1, "p", "e", "", "ak", "sk", "rg", "b"⟩]
        ⟨"p", "e2", "", "ak2", "sk2", "rg2", "b2"⟩ none
      = ([⟨1, "p", "e", "", "ak", "sk", "rg", "b"⟩],
         UiMessage.errorText "Configuration with this name already exists.") :=
  (c7_duplicate_name_save_fails.1 [⟨1, "p", "e", "", "ak", "sk", "rg", "b"⟩]
    ⟨"p", "e2", "", "ak2", "sk2", "rg2", "b2"⟩ none (by decide)).1

/-- C9: `list_configs` never raises: the empty store yields the empty
collection for any fault state, a fault-free call returns all rows with no
message, and any storage fault is logged and turned into the empty
collection. -/
theorem c9_list_configs_never_raises :
    (∀ fault : Option String, (list_configs [] fault).1 = [])
    ∧ (∀ store : List ConfigRow, list_configs store none = (store, []))
    ∧ (∀ (store : List ConfigRow) (m : String),
        list_configs store (some m)
          = ([], [UiMessage.errorText ("Error retrieving configurations: " ++ m)])) := by
  refine ⟨?_, ?_, ?_⟩
  · intro fault
    cases fault <;> rfl
  · intro store
    rfl
  · intro store m
    rfl

/-! ## Human-readable size lemmas -/

/-- Dividing a natural cast by `1024^k` stays below 1024 exactly when the
natural is below `1024^(k+1)`. -/
theorem qdiv_lt_iff_nat (size k : Nat) :
    ((size : ℚ) / 1024^k < 1024) ↔ size < 1024^(k+1) := by
  rw [div_lt_iff₀ (by positivity : (0:ℚ) < (1024:ℚ)^k)]
  have h : ((1024:ℚ) * 1024^k) = ((1024^(k+1) : Nat) : ℚ) := by push_cast [pow_succ]; ring
  rw [h, Nat.cast_lt]

/-- Two chained divisions by 1024 equal one division by `1024^2`. -/
theorem qchain2 (x : ℚ) : x/1024/1024 = x/1024^2 := by
  rw [div_div]; norm_num

/-- Three chained divisions by 1024 equal one division by `1024^3`. -/
theorem qchain3 (x : ℚ) : x/1024/1024/1024 = x/1024^3 := by
  rw [div_div, div_div]; norm_num

/-- Four chained divisions by 1024 equal one division by `1024^4`. -/
theorem qchain4 (x : ℚ) : x/1024/1024/1024/1024 = x/1024^4 := by
  rw [div_div, div_div, div_div]; norm_num

/-- Round-half-even of an integer is that integer. -/
theorem roundHalfEven_intCast (n : ℤ) : roundHalfEven (n : ℚ) = n := by
  unfold roundHalfEven
  rw [Int.floor_intCast, sub_self]
  norm_num

/-- The unit-selection law: below `1024^5` the rendered string uses the first
unit under which the repeatedly divided value drops below 1024. -/
theorem hrs_unit_selection (size : Nat) (hsize : size < 1024^5) :
    ∃ u : Nat, u < 5 ∧ ((size : ℚ) / 1024^u < 1024) ∧
      (∀ v : Nat, v < u → ¬((size : ℚ) / 1024^v < 1024)) ∧
      human_readable_size (size : ℚ)
        = formatOneDec ((size : ℚ) / 1024^u) ++ " " ++ units.getD u "" := by
  have hnotq : ∀ k : Nat, ¬ (size < 1024^(k+1)) → ¬((size:ℚ)/1024^k < 1024) :=
    fun k hk hc => hk ((qdiv_lt_iff_nat size k).mp hc)
  by_cases h0 : size < 1024
  · refine ⟨0, by norm_num, ?_, ?_, ?_⟩
    · exact (qdiv_lt_iff_nat size 0).mpr (by simpa using h0)
    · intro v hv; omega
    · have hq : ((size:ℚ)) < 1024 := by exact_mod_cast h0
      unfold human_readable_size
      simp only [hrsGo]
      rw [if_pos hq, show ((size:ℚ)/1024^0) = (size:ℚ) by rw [pow_zero, div_one],
        show units.getD 0 "" = "B" from rfl]
  · by_cases h1 : size < 1024^2
    · refine ⟨1, by norm_num, (qdiv_lt_iff_nat size 1).mpr h1, ?_, ?_⟩
      · intro v hv
        interval_cases v
        exact hnotq 0 (by simpa using h0)
      · have hq0 : ¬((size:ℚ) < 1024) := by exact_mod_cast h0
        have hq1 : ((size:ℚ)/1024 < 1024) := by
          have := (qdiv_lt_iff_nat size 1).mpr h1
          simpa [pow_one] using this
        unfold human_readable_size
        simp only [hrsGo]
        rw [if_neg hq0, if_pos hq1, show ((size:ℚ)/1024^1) = (size:ℚ)/1024 by rw [pow_one],
          show units.getD 1 "" = "KB" from rfl]
    · by_cases h2 : size < 1024^3
      · refine ⟨2, by norm_num, (qdiv_lt_iff_nat size 2).mpr h2, ?_, ?_⟩
        · intro v hv
          interval_cases v
          · exact hnotq 0 (by simpa using h0)
          · exact hnotq 1 (by simpa using h1)
        · have hq0 : ¬((size:ℚ) < 1024) := by exact_mod_cast h0
          have hq1 : ¬((size:ℚ)/1024 < 1024) := by
            have := hnotq 1 (by simpa using h1)
            simpa [pow_one] using this
          have hq2 : ((size:ℚ)/1024/1024 < 1024) := by
            rw [qchain2]
            exact (qdiv_lt_iff_nat size 2).mpr h2
          unfold human_readable_size
          simp only [hrsGo]
          rw [if_neg hq0, if_neg hq1, if_pos hq2, qchain2,
            show units.getD 2 "" = "MB" from rfl]
      · by_cases h3 : size < 1024^4
        · refine ⟨3, by norm_num, (qdiv_lt_iff_nat size 3).mpr h3, ?_, ?_⟩
          · intro v hv
            interval_cases v
            · exact hnotq 0 (by simpa using h0)
            · exact hnotq 1 (by simpa using h1)
            · exact hnotq 2 (by simpa using h2)
          · have hq0 : ¬((size:ℚ) < 1024) := by exact_mod_cast h0
            have hq1 : ¬((size:ℚ)/1024 < 1024) := by
              have := hnotq 1 (by simpa using h1)
              simpa [pow_one] using this
            have hq2 : ¬((size:ℚ)/1024/1024 < 1024) := by
              rw [qchain2]
              exact hnotq 2 (by simpa using h2)
            have hq3 : ((size:ℚ)/1024/1024/1024 < 1024) := by
              rw [qchain3]
              exact (qdiv_lt_iff_nat size 3).mpr h3
            unfold human_readable_size
            simp only [hrsGo]
            rw [if_neg hq0, if_neg hq1, if_neg hq2, if_pos hq3, qchain3,
              show units.getD 3 "" = "GB" from rfl]
        · refine ⟨4, by norm_num, (qdiv_lt_iff_nat size 4).mpr hsize, ?_, ?_⟩
          · intro v hv
            interval_cases v
            · exact hnotq 0 (by simpa using h0)
            · exact hnotq 1 (by simpa using h1)
            · exact hnotq 2 (by simpa using h2)
            · exact hnotq 3 (by simpa using h3)
          · have hq0 : ¬((size:ℚ) < 1024) := by exact_mod_cast h0
            have hq1 : ¬((size:ℚ)/1024 < 1024) := by
              have := hnotq 1 (by simpa using h1)
              simpa [pow_one] using this
            have hq2 : ¬((size:ℚ)/1024/1024 < 1024) := by
              rw [qchain2]
              exact hnotq 2 (by simpa using h2)
            have hq3 : ¬((size:ℚ)/1024/1024/1024 < 1024) := by
              rw [qchain3]
              exact hnotq 3 (by simpa using h3)
            unfold human_readable_size
            simp only [hrsGo]
            rw [if_neg hq0, if_neg hq1, if_neg hq2, if_neg hq3, qchain4,
              show units.getD 4 "" = "TB" from rfl, String.append_assoc,
              show ((" " : String) ++ "TB") = " TB" from rfl]

/-- Zero bytes renders as "0.0 B". -/
theorem hrs_zero : human_readable_size 0 = "0.0 B" := by
  have hq : (0:ℚ) < 1024 := by norm_num
  unfold human_readable_size
  simp only [hrsGo]
  rw [if_pos hq]
  have hv : (10:ℚ) * 0 = ((0:ℤ):ℚ) := by norm_num
  unfold formatOneDec
  rw [hv, roundHalfEven_intCast]
  decide

/-- 1536 bytes renders as "1.5 KB". -/
theorem hrs_1536 : human_readable_size 1536 = "1.5 KB" := by
  have hq0 : ¬((1536:ℚ) < 1024) := by norm_num
  have hq1 : ((1536:ℚ)/1024 < 1024) := by norm_num
  unfold human_readable_size
  simp only [hrsGo]
  rw [if_neg hq0, if_pos hq1]
  have hv : (10:ℚ) * ((1536:ℚ)/1024) = ((15:ℤ):ℚ) := by norm_num
  unfold formatOneDec
  rw [hv, roundHalfEven_intCast]
  decide

/-- 1073741824 bytes renders as "1.0 GB". -/
theorem hrs_1gib : human_readable_size 1073741824 = "1.0 GB" := by
  have hq0 : ¬((1073741824:ℚ) < 1024) := by norm_num
  have hq1 : ¬((1073741824:ℚ)/1024 < 1024) := by norm_num
  have hq2 : ¬((1073741824:ℚ)/1024/1024 < 1024) := by norm_num
  have hq3 : ((1073741824:ℚ)/1024/1024/1024 < 1024) := by norm_num
  unfold human_readable_size
  simp only [hrsGo]
  rw [if_neg hq0, if_neg hq1, if_neg hq2, if_pos hq3]
  have hv : (10:ℚ) * ((1073741824:ℚ)/1024/1024/1024) = ((10:ℤ):ℚ) := by norm_num
  unfold formatOneDec
  rw [hv, roundHalfEven_intCast]
  decide

/-- A folder entry produces a row whose size column is "0.0 B". -/
theorem transform_row_folder (pfx p : String) :
    transform_row pfx (folderEntry p)
      = [ remove_prefix p pfx, "0.0 B", "", "Download Delete"] := by
  show [ remove_prefix p pfx, human_readable_size ((0:Nat):ℚ), "", "Download Delete"] = _
  rw [Nat.cast_zero, hrs_zero]

/-- C3: the human-readable rendering divides repeatedly by 1024 and uses the
first unit of B, KB, MB, GB, TB under which the value drops below 1024 with
one decimal place; 0 renders as "0.0 B", 1536 as "1.5 KB", 1073741824 as
"1.0 GB", and every folder entry's row renders the size "0.0 B". -/
theorem c3_human_readable_size_units :
    (∀ size : Nat, size < 1024^5 →
        ∃ u : Nat, u < 5 ∧ ((size : ℚ) / 1024^u < 1024) ∧
          (∀ v : Nat, v < u → ¬((size : ℚ) / 1024^v < 1024)) ∧
          human_readable_size (size : ℚ)
            = formatOneDec ((size : ℚ) / 1024^u) ++ " " ++ units.getD u "")
    ∧ human_readable_size 0 = "0.0 B"
    ∧ human_readable_size 1536 = "1.5 KB"
    ∧ human_readable_size 1073741824 = "1.0 GB"
    ∧ (∀ (pfx p : String), transform_row pfx (folderEntry p)
        = [ remove_prefix p pfx, "0.0 B", "", "Download Delete"]) :=
  ⟨hrs_unit_selection, hrs_zero, hrs_1536, hrs_1gib, transform_row_folder⟩

/-- Witness for C3: instantiating the unit-selection law at 1536 bytes. -/
theorem c3_witness :
    1536 < 1024^5 ∧
    ∃ u : Nat, u < 5 ∧ (((1536:Nat) : ℚ) / 1024^u < 1024) ∧
      (∀ v : Nat, v < u → ¬(((1536:Nat) : ℚ) / 1024^v < 1024)) ∧
      human_readable_size ((1536:Nat) : ℚ)
        = formatOneDec (((1536:Nat) : ℚ) / 1024^u) ++ " " ++ units.getD u "" :=
  ⟨by norm_num, c3_human_readable_size_units.1 1536 (by norm_num)⟩

end ObjectStorage
